import Mathlib

/-!
Verification of `src/streamlit_app.py` (baseball hit-chart app).

Shallow embedding conventions:
* Python floats are modelled as real numbers (`ℝ`); the two fixed lookup
  tables carry exact decimal constants and are modelled over `ℚ` so that
  facts about them are decidable.
* `random.uniform a b` is modelled as `a + (b - a) * u` (its CPython
  definition) where `u` is an explicit draw from the seeded stream; the
  module-level `random.seed(42)` makes the stream a fixed function, which
  we pass explicitly (`stream : ℕ → ℝ`).
* A pandas cell is `Cell`: a string, a real number (the derived
  coordinates), or null (`NaN`).  A dataframe is a `Table`: a column-name
  list plus rows of cells.  `df[c]` on a missing column raises `KeyError`,
  modelled by `Except PyExc`.
* Characters are modelled at Unicode-scalar level, but the two
  character-level primitives the code uses are restricted to ASCII:
  `pyIntOfChar` models `int` on a one-character string for the ASCII
  digits (CPython additionally accepts non-ASCII decimal digits), and
  `pyUpper` models `str.upper` on ASCII letters (CPython additionally
  maps a handful of non-ASCII letters such as dotless i).  All data the
  application handles is in this fragment.
-/

/-- A pandas cell: a string value, a float value, or `NaN`/missing. -/
inductive Cell
  | str (s : String)
  | real (x : ℝ)
  | null

/-- A pandas `DataFrame`: named columns and rows of cells.
Every row is as long as `cols`. -/
structure Table where
  cols : List String
  rows : List (List Cell)

/-- Python exceptions the modelled fragment can raise. -/
inductive PyExc
  | keyError (c : String)
  | valueError
deriving DecidableEq

/-- Association-list lookup, mirroring a Python `dict.get`. -/
def alookup {α β : Type} [DecidableEq α] : List (α × β) → α → Option β
  | [], _ => none
  | (k, v) :: t, a => if a = k then some v else alookup t a

/-- `RANK_TO_DISTANCE` (source lines 15-18): distance rank → base radial
distance. -/
def RANK_TO_DISTANCE : List (Nat × ℚ) :=
  [(1, 10), (2, 65), (3, 110), (4, 155), (5, 195), (6, 240), (7, 290)]

/-- `DIRECTION_TO_ANGLE` (source lines 19-25): direction letter → angle
center in degrees, in the dict-literal order. -/
def DIRECTION_TO_ANGLE : List (Char × ℚ) :=
  [('B', -46.5), ('C', -42.2), ('D', -38), ('E', -34.2),
   ('F', -30), ('G', -26), ('H', -22.15), ('I', -18), ('J', -14),
   ('K', -10), ('L', -6), ('M', -2.5), ('N', 1.5), ('O', 5.5),
   ('P', 9.5), ('Q', 13.5), ('R', 17.5), ('S', 21.5), ('T', 25.5),
   ('U', 29.5), ('V', 33.5), ('W', 37.5), ('X', 41.5), ('Y', 45.5)]

/-- `int(memo[1])` on a single character, restricted to ASCII digits:
returns the digit value, failing (`ValueError`, modelled as `none`) on
anything else. -/
def pyIntOfChar (c : Char) : Option Nat :=
  if '0' ≤ c ∧ c ≤ '9' then some (c.toNat - 48) else none

/-- `memo[0].upper()` restricted to ASCII letters: maps `a`-`z` to
`A`-`Z` and leaves every other character unchanged. -/
def pyUpper (c : Char) : Char :=
  if 'a' ≤ c ∧ c ≤ 'z' then Char.ofNat (c.toNat - 32) else c

/-- The guard-and-lookup phase of `parse_memo_to_xy_random_fixed`
(source lines 43-54): the `isinstance`/length guard, `int(memo[1])` in a
`try`, and the two table lookups.  Returns `(angle_center,
base_distance)` on success; `none` models the `pd.Series([None, None])`
soft failure. -/
def parse_memo_lookup (memo : String) : Option (ℚ × ℚ) :=
  match memo.toList with
  | c0 :: c1 :: _ =>
    match pyIntOfChar c1 with
    | none => none
    | some rank =>
      match alookup DIRECTION_TO_ANGLE (pyUpper c0), alookup RANK_TO_DISTANCE rank with
      | some angle_center, some base_distance => some (angle_center, base_distance)
      | _, _ => none
  | _ => none

/-- `random.uniform a b = a + (b - a) * random()`, with the unit draw
`u` passed explicitly. -/
noncomputable def pyUniform (a b u : ℝ) : ℝ := a + (b - a) * u

/-- `angle_deg = angle_center + random.uniform(-angle_range, angle_range)`
(source line 56). -/
noncomputable def jittered_angle (angle_center angle_range u : ℝ) : ℝ :=
  angle_center + pyUniform (-angle_range) angle_range u

/-- `distance = base_distance * random.uniform(1 - distance_range,
1 + distance_range)` (source line 57). -/
noncomputable def jittered_distance (base_distance distance_range u : ℝ) : ℝ :=
  base_distance * pyUniform (1 - distance_range) (1 + distance_range) u

/-- Python `round(x, 2)` idealised over the reals: round half to even at
the second decimal place. -/
noncomputable def roundHalfEven (x : ℝ) : ℤ :=
  if Int.fract x < 1/2 then ⌊x⌋
  else if 1/2 < Int.fract x then ⌊x⌋ + 1
  else if Even ⌊x⌋ then ⌊x⌋ else ⌊x⌋ + 1

/-- `round(x, 2)`. -/
noncomputable def pyRound2 (x : ℝ) : ℝ := (roundHalfEven (x * 100) : ℝ) / 100

/-- The numeric phase of `parse_memo_to_xy_random_fixed` (source lines
56-64): jitter, degree-to-radian conversion, elliptical scaling, and
2-decimal rounding.  `u1` and `u2` are the two consumed uniform draws. -/
noncomputable def transform_xy (angle_center base_distance angle_range distance_range u1 u2 : ℝ) :
    ℝ × ℝ :=
  let angle_deg := jittered_angle angle_center angle_range u1
  let distance := jittered_distance base_distance distance_range u2
  let angle_rad := angle_deg * Real.pi / 180
  (pyRound2 (distance * 1.2 * Real.sin angle_rad),
   pyRound2 (distance * 0.8 * Real.cos angle_rad))

/-- `parse_memo_to_xy_random_fixed` (source lines 42-66) on a string
argument.  `none` models the `pd.Series([None, None])` null pair. -/
noncomputable def parse_memo_to_xy_random_fixed
    (memo : String) (angle_range distance_range u1 u2 : ℝ) : Option (ℝ × ℝ) :=
  match parse_memo_lookup memo with
  | some (angle_center, base_distance) =>
    some (transform_xy (angle_center : ℝ) (base_distance : ℝ) angle_range distance_range u1 u2)
  | none => none

/-- Cell equality against a string selection (`df[c] == value` for the
string-valued filters); `NaN` and float cells compare unequal. -/
def Cell.eqS : Cell → String → Bool
  | .str s, t => s = t
  | _, _ => false

/-- `df[c].isin(values)` on one cell; `NaN` is never in the list. -/
def Cell.inS : Cell → List String → Bool
  | .str s, l => l.contains s
  | _, _ => false

/-- Is the cell null (`NaN`)? -/
def Cell.isNull : Cell → Bool
  | .null => true
  | _ => false

/-- Index of the first occurrence of a name in a list, if any. -/
def idxOf? : List String → String → Option Nat
  | [], _ => none
  | k :: t, c => if k = c then some 0 else (idxOf? t c).map (fun i => i + 1)

/-- Index of column `c`, if present. -/
def Table.colIdx (t : Table) (c : String) : Option Nat :=
  idxOf? t.cols c

/-- Does the table have column `c` (`c in df.columns`)? -/
def Table.hasCol (t : Table) (c : String) : Bool :=
  (idxOf? t.cols c).isSome

/-- `df[c]` as a column of cells; raises `KeyError` when absent. -/
def Table.getCol (t : Table) (c : String) : Except PyExc (List Cell) :=
  match t.colIdx c with
  | none => .error (.keyError c)
  | some i => .ok (t.rows.map (fun r => r.getD i .null))

/-- Boolean-mask row filtering `df[df[c].map p]`; raises `KeyError` when
column `c` is absent. -/
def Table.filterCol (t : Table) (c : String) (p : Cell → Bool) : Except PyExc Table :=
  match t.colIdx c with
  | none => .error (.keyError c)
  | some i => .ok ⟨t.cols, t.rows.filter (fun r => p (r.getD i .null))⟩

/-- `df[c] = vals`: overwrite column `c` if present, else append it on
the right (pandas column assignment). -/
def Table.setCol (t : Table) (c : String) (vals : List Cell) : Table :=
  match t.colIdx c with
  | some i => ⟨t.cols, (t.rows.zip vals).map (fun rv => rv.1.set i rv.2)⟩
  | none => ⟨t.cols ++ [c], (t.rows.zip vals).map (fun rv => rv.1 ++ [rv.2])⟩

/-- `pd.concat(df_list, ignore_index=True)`: the column set is the union
in order of first appearance; rows are reindexed against it, missing
cells become `NaN`. -/
def concatTables (ts : List Table) : Table :=
  let cols := ts.foldl (fun acc t => acc ++ t.cols.filter (fun c => !acc.contains c)) []
  ⟨cols,
   (ts.map (fun t =>
     t.rows.map (fun r =>
       cols.map (fun c =>
         match t.colIdx c with
         | some i => r.getD i .null
         | none => .null)))).flatten⟩

/-- One CSV file of the data directory: its base name and, when
`pd.read_csv` succeeds, its table (`none` models a read error). -/
structure PyFile where
  name : String
  content : Option Table

/-- `df["試合"] = os.path.basename(file)` (source line 86). -/
def tagGame (t : Table) (game : String) : Table :=
  t.setCol "試合" (t.rows.map (fun _ => Cell.str game))

/-- The per-file read loop of `load_and_preprocess_data` (source lines
82-89): each readable file is tagged and collected, each unreadable file
is skipped and surfaces one `st.warning`.  Returns the collected tables
and the warning count. -/
def readFiles (files : List PyFile) : List Table × Nat :=
  files.foldl
    (fun acc f =>
      match f.content with
      | some t => (acc.1 ++ [tagGame t f.name], acc.2)
      | none => (acc.1, acc.2 + 1))
    ([], 0)

/-- Result of a completed (non-raising) load: the dataframe, the number
of `st.warning` calls, and whether the required-column `st.error` was
surfaced. -/
structure LoadResult where
  table : Table
  warnings : Nat
  schemaError : Bool

/-- The row-wise `df_all['Memo'].apply(parse_memo_to_xy_random_fixed)`
(source line 95) with the default jitter parameters, threading the
seeded draw stream: a valid memo consumes two draws, an invalid one
consumes none (the code returns before drawing). -/
noncomputable def computeXYs : List Cell → Nat → (Nat → ℝ) → List (Option (ℝ × ℝ))
  | [], _, _ => []
  | c :: rest, k, stream =>
    match c with
    | .str s =>
      match parse_memo_lookup s with
      | some (angle_center, base_distance) =>
        some (transform_xy (angle_center : ℝ) (base_distance : ℝ) 0.05 0.1
              (stream k) (stream (k + 1))) :: computeXYs rest (k + 2) stream
      | none => none :: computeXYs rest k stream
    | _ => none :: computeXYs rest k stream

/-- Required columns of the merged schema (source line 98). -/
def required_cols : List String := ["Batter", "PitchType", "HitType", "Memo"]

/-- `df.dropna(subset=['打球X', '打球Y'])` (source line 103). -/
def dropnaXY (t : Table) : Except PyExc Table := do
  let xi ← match t.colIdx "打球X" with
    | some i => pure i
    | none => Except.error (.keyError "打球X")
  let yi ← match t.colIdx "打球Y" with
    | some i => pure i
    | none => Except.error (.keyError "打球Y")
  pure ⟨t.cols, t.rows.filter (fun r => !(r.getD xi .null).isNull && !(r.getD yi .null).isNull)⟩

/-- `load_and_preprocess_data` (source lines 77-104).  `files` stands
for the globbed CSV files of the directory, `stream` for the seeded
`random` module state.  An uncaught Python exception is `.error`;
otherwise the returned `LoadResult` records the dataframe and the
surfaced messages. -/
noncomputable def load_and_preprocess_data (files : List PyFile) (stream : Nat → ℝ) :
    Except PyExc LoadResult := do
  if files.isEmpty then
    return ⟨⟨[], []⟩, 0, false⟩
  let (tables, w) := readFiles files
  if tables.isEmpty then
    return ⟨⟨[], []⟩, w, false⟩
  let df_all := concatTables tables
  -- df_all['Memo'] is indexed here, *before* the required-column check:
  -- a missing Memo column raises KeyError out of the function.
  let memoCol ← df_all.getCol "Memo"
  let xys := computeXYs memoCol 0 stream
  let df2 := df_all.setCol "打球X"
    (xys.map (fun o => match o with | some xy => Cell.real xy.1 | none => Cell.null))
  let df3 := df2.setCol "打球Y"
    (xys.map (fun o => match o with | some xy => Cell.real xy.2 | none => Cell.null))
  if required_cols.all (fun c => df3.hasCol c) then
    let df4 ← dropnaXY df3
    return ⟨df4, w, false⟩
  else
    return ⟨⟨[], []⟩, w, true⟩

/-- The sidebar pitch-type radio (source line 143). -/
inductive PitchFilter
  | all       -- "すべて"
  | straight  -- "ストレート"
  | breaking  -- "変化球"

/-- The sidebar filter selections.  `none` in `batter`/`game` stands for
"全選手"/"全試合", `none` in `ball`/`strike` for "すべて"; count values
are carried as the cell strings they are compared against. -/
structure FilterSpec where
  batter : Option String
  game : Option String
  hitTypes : List String
  pitch : PitchFilter
  ball : Option String
  strike : Option String

/-- Batter filter (source lines 159-160). -/
def stepBatter (df : Table) (sel : Option String) : Except PyExc Table :=
  match sel with
  | some b => df.filterCol "Batter" (fun c => c.eqS b)
  | none => .ok df

/-- Game filter (source lines 161-162). -/
def stepGame (df : Table) (sel : Option String) : Except PyExc Table :=
  match sel with
  | some g => df.filterCol "試合" (fun c => c.eqS g)
  | none => .ok df

/-- Hit-type filter (source lines 163-164): `if selected_hit_types:` —
an empty selection list is falsy, so the filter is skipped. -/
def stepHitTypes (df : Table) (sel : List String) : Except PyExc Table :=
  if sel.isEmpty then .ok df
  else df.filterCol "HitType" (fun c => c.inS sel)

/-- Pitch-type filter (source lines 166-169). -/
def stepPitch (df : Table) (sel : PitchFilter) : Except PyExc Table :=
  match sel with
  | .all => .ok df
  | .straight => df.filterCol "PitchType" (fun c => c.eqS "ストレート")
  | .breaking => df.filterCol "PitchType" (fun c => !(c.inS ["ストレート", "不明"]))

/-- Count filter on one column (source lines 172-175): applied only when
a concrete count was selected. -/
def stepCount (df : Table) (col : String) (sel : Option String) : Except PyExc Table :=
  match sel with
  | some n => df.filterCol col (fun c => c.eqS n)
  | none => .ok df

/-- The filtering section of `main` (source lines 146-175).  The count
selections exist only when both `Ball` and `Strike` columns are present
(source line 147); otherwise `selected_ball`/`selected_strike` stay
`None` and the two count predicates are disabled. -/
def mainFilter (df : Table) (s : FilterSpec) : Except PyExc Table := do
  let countsEnabled := df.hasCol "Ball" && df.hasCol "Strike"
  let selBall := if countsEnabled then s.ball else none
  let selStrike := if countsEnabled then s.strike else none
  let df1 ← stepBatter df s.batter
  let df2 ← stepGame df1 s.game
  let df3 ← stepHitTypes df2 s.hitTypes
  let df4 ← stepPitch df3 s.pitch
  let df5 ← stepCount df4 "Ball" selBall
  let df6 ← stepCount df5 "Strike" selStrike
  return df6

/-- Python `int(cell)`: parses integer strings, truncates floats toward
zero, raises `ValueError` on `NaN` and unparsable strings. -/
noncomputable def pyIntOfCell : Cell → Except PyExc Int
  | .str s => match s.toInt? with
    | some n => .ok n
    | none => .error .valueError
  | .real x => .ok (if 0 ≤ x then ⌊x⌋ else -⌊-x⌋)
  | .null => .error .valueError

/-- One hover label (source line 210):
`f"選手: {b}<br>打球: {h}<br>球種: {p}<br>カウント: {int(ba)}-{int(s)}<br>メモ: {m}"`. -/
noncomputable def hoverLabel (b h p m ba s : Cell) : Except PyExc String := do
  let iba ← pyIntOfCell ba
  let is0 ← pyIntOfCell s
  let show0 := fun (c : Cell) => match c with
    | .str v => v
    | .null => "nan"
    | .real _ => ""
  return "選手: " ++ show0 b ++ "<br>打球: " ++ show0 h ++ "<br>球種: " ++ show0 p ++
    "<br>カウント: " ++ toString iba ++ "-" ++ toString is0 ++ "<br>メモ: " ++ show0 m

/-- The hover-text construction of the plot trace (source lines
210-211): the six columns are indexed unconditionally, in the textual
order of the `zip` arguments, before any row is formatted. -/
noncomputable def buildHoverText (df : Table) : Except PyExc (List String) := do
  let bs ← df.getCol "Batter"
  let hs ← df.getCol "HitType"
  let ps ← df.getCol "PitchType"
  let ms ← df.getCol "Memo"
  let bas ← df.getCol "Ball"
  let ss ← df.getCol "Strike"
  (((((bs.zip hs).zip ps).zip ms).zip bas).zip ss).mapM
    (fun x => hoverLabel x.1.1.1.1.1 x.1.1.1.1.2 x.1.1.1.2 x.1.1.2 x.1.2 x.2)

/-! ## Example data -/

/-- A one-row dataset with all the columns `main` touches except the
count columns. -/
def exDf1 : Table :=
  ⟨["Batter", "試合", "HitType", "PitchType", "Memo"],
   [[.str "山田", .str "g1.csv", .str "ゴロ", .str "ストレート", .str "M4"]]⟩

/-- A filter specification selecting nothing: every hit type
deselected, everything else "all". -/
def exSpecEmptyHit : FilterSpec := ⟨none, none, [], .all, none, none⟩

/-- A readable two-row CSV file. -/
def exValidTable : Table :=
  ⟨["Batter", "PitchType", "HitType", "Memo"],
   [[.str "山田", .str "ストレート", .str "ゴロ", .str "M4"],
    [.str "佐藤", .str "カーブ", .str "フライ", .str "S2"]]⟩

/-- A malformed CSV file: `pd.read_csv` raises. -/
def exBadFile : PyFile := ⟨"broken.csv", none⟩

/-- The valid CSV file. -/
def exGoodFile : PyFile := ⟨"valid.csv", some exValidTable⟩

/-- A readable file whose table lacks the `Memo` column. -/
def exNoMemoFile : PyFile :=
  ⟨"a.csv", some ⟨["Batter", "PitchType", "HitType"],
                  [[.str "山田", .str "ストレート", .str "ゴロ"]]⟩⟩

/-! ## Claims -/

/-- C1, counterexample.  The claim says an empty hit-type selection
yields zero filtered rows; on the code, `if selected_hit_types:` is
falsy for an empty list, so the filter engine returns the full one-row
dataset. -/
theorem C1_counterexample :
    mainFilter exDf1 exSpecEmptyHit = Except.ok exDf1 ∧ exDf1.rows.length = 1 :=
  ⟨rfl, rfl⟩

/-- C1, amended: when the selected hit-type set is empty, the hit-type
filter is skipped entirely, so every row of the otherwise-filtered
dataset passes (the full dataset, not the empty one). -/
theorem C1_empty_hit_selection_skips_filter (df : Table) :
    stepHitTypes df [] = Except.ok df := by
  simp [stepHitTypes]

/-- C7, counterexample.  The claim gives the irregular direction-table
entry at `'H'` the value 22.15°; the code maps `'H'` to -22.15°. -/
theorem C7_counterexample :
    alookup DIRECTION_TO_ANGLE 'H' = some (-22.15 : ℚ) ∧ ((-22.15 : ℚ) ≠ 22.15) := by
  constructor
  · rfl
  · norm_num

/-- C7, amended: the rank table is exactly
{1:10, 2:65, 3:110, 4:155, 5:195, 6:240, 7:290}; the direction table has
exactly 24 entries for the letters 'B'-'Y', from -46.5° at 'B' to 45.5°
at 'Y', strictly increasing in steps between 3.5° and 4.3° (roughly 4°),
and its single entry whose value is not a multiple of 0.1° — the
irregular one — is 'H', whose value is -22.15° (not 22.15° as the claim
puts it): twenty times each angle is the integer in the given list, and
the only odd member of that list is -443 = 20 · (-22.15). -/
theorem C7_lookup_tables :
    RANK_TO_DISTANCE =
      [(1, 10), (2, 65), (3, 110), (4, 155), (5, 195), (6, 240), (7, 290)] ∧
    DIRECTION_TO_ANGLE.length = 24 ∧
    DIRECTION_TO_ANGLE.map Prod.fst =
      ['B', 'C', 'D', 'E', 'F', 'G', 'H', 'I', 'J', 'K', 'L', 'M',
       'N', 'O', 'P', 'Q', 'R', 'S', 'T', 'U', 'V', 'W', 'X', 'Y'] ∧
    alookup DIRECTION_TO_ANGLE 'B' = some (-46.5 : ℚ) ∧
    alookup DIRECTION_TO_ANGLE 'Y' = some (45.5 : ℚ) ∧
    alookup DIRECTION_TO_ANGLE 'H' = some (-22.15 : ℚ) ∧
    List.Chain' (fun a b : ℚ => a < b ∧ (3.5 : ℚ) ≤ b - a ∧ b - a ≤ (4.3 : ℚ))
      (DIRECTION_TO_ANGLE.map Prod.snd) ∧
    DIRECTION_TO_ANGLE.map (fun p => 20 * p.2) =
      ([-930, -844, -760, -684, -600, -520, -443, -360, -280, -200, -120, -50,
        30, 110, 190, 270, 350, 430, 510, 590, 670, 750, 830, 910] : List ℤ).map
        (fun n => (n : ℚ)) ∧
    (([-930, -844, -760, -684, -600, -520, -443, -360, -280, -200, -120, -50,
       30, 110, 190, 270, 350, 430, 510, 590, 670, 750, 830, 910] : List ℤ).filter
       (fun n => ¬(2 ∣ n))) = [-443] ∧
    (20 : ℚ) * (-22.15) = -443 := by
  refine ⟨rfl, rfl, rfl, rfl, rfl, rfl, ?_, ?_, ?_, ?_⟩
  · norm_num [DIRECTION_TO_ANGLE, List.chain'_cons]
  · norm_num [DIRECTION_TO_ANGLE]
  · decide
  · norm_num

/-- C4: the coordinate transform is deterministic — identical inputs
consuming identical RNG draws give identical outputs, both for a single
memo and for a whole row sequence processed in a fixed order from a
fixed seeded stream. -/
theorem C4_transform_deterministic :
    (∀ (memo : String) (ar dr u1 u2 v1 v2 : ℝ), u1 = v1 → u2 = v2 →
      parse_memo_to_xy_random_fixed memo ar dr u1 u2 =
        parse_memo_to_xy_random_fixed memo ar dr v1 v2) ∧
    (∀ (cells : List Cell) (k : Nat) (s1 s2 : Nat → ℝ), s1 = s2 →
      computeXYs cells k s1 = computeXYs cells k s2) := by
  constructor
  · intro memo ar dr u1 u2 v1 v2 h1 h2
    rw [h1, h2]
  · intro cells k s1 s2 h
    rw [h]

/-- C4 witness: determinism applied at a concrete memo and concrete
draws. -/
theorem C4_transform_deterministic_witness :
    parse_memo_to_xy_random_fixed "M4" 0.05 0.1 0 1 =
      parse_memo_to_xy_random_fixed "M4" 0.05 0.1 0 1 :=
  C4_transform_deterministic.1 "M4" 0.05 0.1 0 1 0 1 rfl rfl

/-- Helper: the read loop with an arbitrary accumulator. -/
theorem readFiles_foldl (files : List PyFile) (acc : List Table) (w : Nat) :
    files.foldl
      (fun acc f =>
        match f.content with
        | some t => (acc.1 ++ [tagGame t f.name], acc.2)
        | none => (acc.1, acc.2 + 1))
      (acc, w) =
    (acc ++ files.filterMap (fun f => f.content.map (fun t => tagGame t f.name)),
     w + files.countP (fun f => f.content.isNone)) := by
  induction files generalizing acc w with
  | nil => simp
  | cons f rest ih =>
    cases hf : f.content with
    | some t =>
      simp only [List.foldl_cons, hf, List.filterMap_cons, List.countP_cons, ih,
        Option.map_some, Option.isNone_some, List.append_assoc]
      simp
    | none =>
      simp only [List.foldl_cons, hf, List.filterMap_cons, List.countP_cons, ih,
        Option.map_none, Option.isNone_none, List.append_assoc]
      simp
      omega

/-- C8: per-file partial success.  The read loop collects exactly the
tagged tables of the readable files and surfaces exactly one warning per
unreadable file; in particular a directory with one malformed CSV and
one valid two-row CSV yields just the valid file's tagged table and one
warning. -/
theorem C8_partial_success :
    (∀ files : List PyFile,
      readFiles files =
        (files.filterMap (fun f => f.content.map (fun t => tagGame t f.name)),
         files.countP (fun f => f.content.isNone))) ∧
    readFiles [exBadFile, exGoodFile] = ([tagGame exValidTable "valid.csv"], 1) := by
  constructor
  · intro files
    rw [readFiles, readFiles_foldl]
    simp
  · rfl

/-- C2: the claim says a merged table missing any required column
(Batter, PitchType, HitType, Memo) makes the loader return an empty
result and signal a schema error rather than raise.  The code indexes
`df_all['Memo']` on line 95, before the required-column check of lines
98-101, so a merged table without a `Memo` column raises `KeyError`
instead of reaching that check: the code contradicts its own
required-column error path.  Evaluation at the failing input: -/
theorem C2_missing_memo_raises (stream : Nat → ℝ) :
    load_and_preprocess_data [exNoMemoFile] stream = Except.error (.keyError "Memo") := rfl

/-- Char order is codepoint order. -/
theorem charLe_toNat {a b : Char} : (a ≤ b) ↔ (a.toNat ≤ b.toNat) := Iff.rfl

theorem toNat_c0 : ('0').toNat = 48 := rfl

theorem toNat_c9 : ('9').toNat = 57 := rfl

theorem toNat_c1 : ('1').toNat = 49 := rfl

theorem toNat_c7 : ('7').toNat = 55 := rfl

theorem toNat_ca : ('a').toNat = 97 := rfl

theorem toNat_cz : ('z').toNat = 122 := rfl

theorem toNat_cB : ('B').toNat = 66 := rfl

theorem toNat_cY : ('Y').toNat = 89 := rfl

theorem toNat_cb : ('b').toNat = 98 := rfl

theorem toNat_cy : ('y').toNat = 121 := rfl
/-- An association-list lookup succeeds exactly when the key occurs. -/
theorem alookup_isSome_iff_mem {α β : Type} [DecidableEq α] (l : List (α × β)) (a : α) :
    (alookup l a).isSome = true ↔ a ∈ l.map Prod.fst := by
  induction l with
  | nil => simp [alookup]
  | cons p t ih =>
    obtain ⟨k, v⟩ := p
    simp only [alookup, List.map_cons, List.mem_cons]
    split_ifs with hak
    · simp [hak]
    · simp [ih, hak]

/-- The direction table has an entry exactly for the codepoints of
'B'-'Y'. -/
theorem alookupD_isSome (c : Char) :
    (alookup DIRECTION_TO_ANGLE c).isSome = true ↔ (66 ≤ c.toNat ∧ c.toNat ≤ 89) := by
  rw [alookup_isSome_iff_mem]
  constructor
  · intro h
    fin_cases h <;> decide
  · rintro ⟨h1, h2⟩
    have hc : c = Char.ofNat c.toNat := (Char.ofNat_toNat c).symm
    generalize hg : c.toNat = n at h1 h2 hc
    subst hc
    interval_cases n <;> decide

/-- The rank table has an entry exactly for ranks 1-7. -/
theorem alookupR_isSome (r : Nat) :
    (alookup RANK_TO_DISTANCE r).isSome = true ↔ (1 ≤ r ∧ r ≤ 7) := by
  rw [alookup_isSome_iff_mem]
  constructor
  · intro h
    fin_cases h <;> decide
  · rintro ⟨h1, h2⟩
    interval_cases r <;> decide

/-- `pyUpper c` lands in the direction-table key range exactly when `c`
is an upper- or lower-case letter B-Y. -/
theorem pyUpper_key_range (c : Char) :
    (66 ≤ (pyUpper c).toNat ∧ (pyUpper c).toNat ≤ 89) ↔
      ((66 ≤ c.toNat ∧ c.toNat ≤ 89) ∨ (98 ≤ c.toNat ∧ c.toNat ≤ 121)) := by
  rw [pyUpper]
  split_ifs with h
  · have h1 : 97 ≤ c.toNat := charLe_toNat.mp h.1
    have h2 : c.toNat ≤ 122 := charLe_toNat.mp h.2
    have hc : c = Char.ofNat c.toNat := (Char.ofNat_toNat c).symm
    generalize hg : c.toNat = n at h1 h2 hc
    subst hc
    interval_cases n <;> decide
  · have h3 : ¬(97 ≤ c.toNat ∧ c.toNat ≤ 122) := by
      intro hx
      exact h ⟨charLe_toNat.mpr hx.1, charLe_toNat.mpr hx.2⟩
    omega

/-- The parser yields a pair exactly when the lookup phase does. -/
theorem parse_to_xy_isSome (memo : String) (ar dr u1 u2 : ℝ) :
    (parse_memo_to_xy_random_fixed memo ar dr u1 u2).isSome =
      (parse_memo_lookup memo).isSome := by
  rcases h : parse_memo_lookup memo with _ | ⟨a, b⟩ <;>
    simp [parse_memo_to_xy_random_fixed, h]

/-- The spec's validity notion for a memo code, from the claim's words:
first character a letter in B-Y (either case), second character a digit
in 1-7. -/
def validMemoSpec (memo : String) : Bool :=
  match memo.toList with
  | c0 :: c1 :: _ =>
    (('B' ≤ c0 && c0 ≤ 'Y') || ('b' ≤ c0 && c0 ≤ 'y')) && ('1' ≤ c1 && c1 ≤ '7')
  | _ => false

/-- `isSome` of the paired-lookup match in the parser. -/
theorem pairMatch_isSome (o1 o2 : Option ℚ) :
    (match o1, o2 with
     | some a, some b => some (a, b)
     | _, _ => (none : Option (ℚ × ℚ))).isSome = (o1.isSome && o2.isSome) := by
  rcases o1 <;> rcases o2 <;> rfl

/-- C3: for every string of length at least two, the parser returns a
non-null pair exactly when the memo is valid in the spec's sense (first
character a letter B-Y case-insensitive, second a digit 1-7); every
other such string gets the null pair. -/
theorem C3_parser_characterization (memo : String) (ar dr u1 u2 : ℝ)
    (h : 2 ≤ memo.length) :
    ((parse_memo_to_xy_random_fixed memo ar dr u1 u2).isSome = true ↔
      validMemoSpec memo = true) := by
  rw [parse_to_xy_isSome]
  obtain ⟨data⟩ := memo
  match data with
  | [] => simp [String.length] at h
  | [c0] => simp [String.length] at h
  | c0 :: c1 :: rest =>
    have hRHS : (validMemoSpec ⟨c0 :: c1 :: rest⟩ = true) ↔
        ((((66 ≤ c0.toNat ∧ c0.toNat ≤ 89) ∨ (98 ≤ c0.toNat ∧ c0.toNat ≤ 121)) ∧
          (49 ≤ c1.toNat ∧ c1.toNat ≤ 55))) := by
      rw [show validMemoSpec ⟨c0 :: c1 :: rest⟩ =
          ((('B' ≤ c0 && c0 ≤ 'Y') || ('b' ≤ c0 && c0 ≤ 'y')) &&
           ('1' ≤ c1 && c1 ≤ '7')) from rfl]
      simp only [Bool.and_eq_true, Bool.or_eq_true, decide_eq_true_eq, charLe_toNat,
        toNat_c1, toNat_c7, toNat_cB, toNat_cY, toNat_cb, toNat_cy]
    rw [hRHS]
    rcases hd : pyIntOfChar c1 with _ | rank
    · have hL : parse_memo_lookup ⟨c0 :: c1 :: rest⟩ = none := by
        rw [show parse_memo_lookup ⟨c0 :: c1 :: rest⟩ =
            (match pyIntOfChar c1 with
             | none => none
             | some rank =>
               match alookup DIRECTION_TO_ANGLE (pyUpper c0),
                   alookup RANK_TO_DISTANCE rank with
               | some angle_center, some base_distance => some (angle_center, base_distance)
               | _, _ => none) from rfl, hd]
      have hdig2 : ¬(48 ≤ c1.toNat ∧ c1.toNat ≤ 57) := by
        rw [pyIntOfChar] at hd
        split_ifs at hd with hdig
        intro hx
        exact hdig ⟨charLe_toNat.mpr (by rw [toNat_c0]; exact hx.1),
                    charLe_toNat.mpr (by rw [toNat_c9]; exact hx.2)⟩
      rw [hL]
      simp only [Option.isSome_none, Bool.false_eq_true, false_iff]
      rintro ⟨_, hc1, hc7⟩
      exact hdig2 ⟨by omega, by omega⟩
    · have hdig3 : 48 ≤ c1.toNat ∧ c1.toNat ≤ 57 ∧ rank = c1.toNat - 48 := by
        rw [pyIntOfChar] at hd
        split_ifs at hd with hdig
        injection hd with hr
        exact ⟨by rw [← toNat_c0]; exact charLe_toNat.mp hdig.1,
               by rw [← toNat_c9]; exact charLe_toNat.mp hdig.2, hr.symm⟩
      obtain ⟨hn1, hn2, hrank⟩ := hdig3
      have hL : parse_memo_lookup ⟨c0 :: c1 :: rest⟩ =
          (match alookup DIRECTION_TO_ANGLE (pyUpper c0),
              alookup RANK_TO_DISTANCE rank with
           | some angle_center, some base_distance => some (angle_center, base_distance)
           | _, _ => none) := by
        rw [show parse_memo_lookup ⟨c0 :: c1 :: rest⟩ =
            (match pyIntOfChar c1 with
             | none => none
             | some rank =>
               match alookup DIRECTION_TO_ANGLE (pyUpper c0),
                   alookup RANK_TO_DISTANCE rank with
               | some angle_center, some base_distance => some (angle_center, base_distance)
               | _, _ => none) from rfl, hd]
      rw [hL, pairMatch_isSome, Bool.and_eq_true, alookupD_isSome, alookupR_isSome,
        pyUpper_key_range]
      constructor
      · rintro ⟨hdisj, hr1, hr7⟩
        exact ⟨hdisj, by omega, by omega⟩
      · rintro ⟨hdisj, h49, h55⟩
        exact ⟨hdisj, by omega, by omega⟩

/-- C3 witness: the valid memo "M4" parses to a non-null pair. -/
theorem C3_parser_characterization_witness :
    (parse_memo_to_xy_random_fixed "M4" 1 1 0 0).isSome = true :=
  (C3_parser_characterization "M4" 1 1 0 0 (by decide)).mpr (by decide)

/-- A successful association-list lookup returns a stored pair. -/
theorem alookup_mem {α β : Type} [DecidableEq α] (l : List (α × β)) (a : α) (b : β)
    (h : alookup l a = some b) : (a, b) ∈ l := by
  induction l with
  | nil => simp [alookup] at h
  | cons p t ih =>
    obtain ⟨k, v⟩ := p
    rw [alookup] at h
    split_ifs at h with hak
    · injection h with hv
      subst hak
      subst hv
      exact List.mem_cons_self _ _
    · exact List.mem_cons_of_mem _ (ih h)

/-- A successful parse takes its base distance from the rank table. -/
theorem parse_lookup_rank_mem (memo : String) (c d : ℚ)
    (h : parse_memo_lookup memo = some (c, d)) : ∃ r, (r, d) ∈ RANK_TO_DISTANCE := by
  obtain ⟨data⟩ := memo
  match data with
  | [] => simp [parse_memo_lookup, String.toList] at h
  | [c0] => simp [parse_memo_lookup, String.toList] at h
  | c0 :: c1 :: rest =>
    rw [show parse_memo_lookup ⟨c0 :: c1 :: rest⟩ =
        (match pyIntOfChar c1 with
         | none => none
         | some rank =>
           match alookup DIRECTION_TO_ANGLE (pyUpper c0),
               alookup RANK_TO_DISTANCE rank with
           | some angle_center, some base_distance => some (angle_center, base_distance)
           | _, _ => none) from rfl] at h
    rcases hd : pyIntOfChar c1 with _ | rank <;> rw [hd] at h
    · simp at h
    · simp only [Option.some.injEq] at h
      rcases hA : alookup DIRECTION_TO_ANGLE (pyUpper c0) with _ | av <;>
        rcases hR : alookup RANK_TO_DISTANCE rank with _ | rv <;>
        rw [hA, hR] at h <;> simp at h
      exact ⟨rank, by rw [← h.2]; exact alookup_mem _ _ _ hR⟩

/-- Every base distance in the rank table is nonnegative. -/
theorem rank_distance_nonneg (r : Nat) (d : ℚ) (h : (r, d) ∈ RANK_TO_DISTANCE) :
    (0 : ℚ) ≤ d := by
  fin_cases h <;> norm_num

/-- C6: for every valid memo processed with the default parameters
(angle_range = 0.05, distance_range = 0.1), whatever values the uniform
draws take in [0, 1], the jittered distance stays within
base_distance·[0.9, 1.1] and the jittered angle within the direction's
center ± 0.05°. -/
theorem C6_jitter_bounds (memo : String) (c d : ℚ) (u1 u2 : ℝ)
    (hp : parse_memo_lookup memo = some (c, d))
    (h1 : 0 ≤ u1) (h2 : u1 ≤ 1) (h3 : 0 ≤ u2) (h4 : u2 ≤ 1) :
    (0.9 * (d : ℝ) ≤ jittered_distance (d : ℝ) 0.1 u2 ∧
     jittered_distance (d : ℝ) 0.1 u2 ≤ 1.1 * (d : ℝ)) ∧
    ((c : ℝ) - 0.05 ≤ jittered_angle (c : ℝ) 0.05 u1 ∧
     jittered_angle (c : ℝ) 0.05 u1 ≤ (c : ℝ) + 0.05) := by
  obtain ⟨r, hr⟩ := parse_lookup_rank_mem memo c d hp
  have hd0 : (0 : ℚ) ≤ d := rank_distance_nonneg r d hr
  have hd0R : (0 : ℝ) ≤ (d : ℝ) := by exact_mod_cast hd0
  unfold jittered_distance jittered_angle pyUniform
  refine ⟨⟨?_, ?_⟩, ?_, ?_⟩
  · nlinarith [mul_nonneg hd0R h3]
  · nlinarith [mul_nonneg hd0R (by linarith : (0 : ℝ) ≤ 1 - u2)]
  · nlinarith
  · nlinarith

/-- C6 witness: the bounds at memo "M4" with both draws 1/2. -/
theorem C6_jitter_bounds_witness :
    (0.9 * ((155 : ℚ) : ℝ) ≤ jittered_distance ((155 : ℚ) : ℝ) 0.1 (1/2) ∧
     jittered_distance ((155 : ℚ) : ℝ) 0.1 (1/2) ≤ 1.1 * ((155 : ℚ) : ℝ)) ∧
    (((-2.5 : ℚ) : ℝ) - 0.05 ≤ jittered_angle (((-2.5 : ℚ)) : ℝ) 0.05 (1/2) ∧
     jittered_angle (((-2.5 : ℚ)) : ℝ) 0.05 (1/2) ≤ ((-2.5 : ℚ) : ℝ) + 0.05) :=
  C6_jitter_bounds "M4" (-2.5) 155 (1/2) (1/2) rfl
    (by norm_num) (by norm_num) (by norm_num) (by norm_num)

/-- Half-even rounding below the midpoint rounds down. -/
theorem roundHalfEven_lt_half (x : ℝ) (n : ℤ) (h1 : (n : ℝ) ≤ x) (h2 : x < (n : ℝ) + 1/2) :
    roundHalfEven x = n := by
  have hfl : ⌊x⌋ = n := Int.floor_eq_iff.mpr ⟨h1, by linarith⟩
  have hfr : Int.fract x < 1/2 := by
    rw [Int.fract, hfl]
    linarith
  rw [roundHalfEven, if_pos hfr, hfl]

/-- Half-even rounding above the midpoint rounds up. -/
theorem roundHalfEven_gt_half (x : ℝ) (n : ℤ) (h1 : (n : ℝ) + 1/2 < x) (h2 : x < (n : ℝ) + 1) :
    roundHalfEven x = n + 1 := by
  have hfl : ⌊x⌋ = n := Int.floor_eq_iff.mpr ⟨by linarith, by linarith⟩
  have hfr1 : ¬(Int.fract x < 1/2) := by
    rw [Int.fract, hfl]
    push_neg
    linarith
  have hfr2 : 1/2 < Int.fract x := by
    rw [Int.fract, hfl]
    linarith
  rw [roundHalfEven, if_neg hfr1, if_pos hfr2, hfl]

/-- Numeric bounds for sin(π/72), i.e. sin of 2.5°. -/
theorem sin_pi72_bounds :
    (0.04361 : ℝ) ≤ Real.sin (Real.pi / 72) ∧ Real.sin (Real.pi / 72) ≤ 0.043620 := by
  have hl : (0.0436332 : ℝ) < Real.pi / 72 := by
    have := Real.pi_gt_d6
    linarith
  have hu : Real.pi / 72 < 0.04363324 := by
    have := Real.pi_lt_d6
    linarith
  have ht0 : (0 : ℝ) < Real.pi / 72 := by linarith
  have habs : |Real.pi / 72| ≤ 1 := by
    rw [abs_of_pos ht0]
    linarith
  have hb := abs_le.mp (Real.sin_bound habs)
  rw [abs_of_pos ht0] at hb
  have e3u : (Real.pi / 72) ^ 3 ≤ (0.04363324 : ℝ) ^ 3 :=
    pow_le_pow_left₀ (le_of_lt ht0) (le_of_lt hu) 3
  have e3l : (0.0436332 : ℝ) ^ 3 ≤ (Real.pi / 72) ^ 3 :=
    pow_le_pow_left₀ (by norm_num) (le_of_lt hl) 3
  have e4u : (Real.pi / 72) ^ 4 ≤ (0.04363324 : ℝ) ^ 4 :=
    pow_le_pow_left₀ (le_of_lt ht0) (le_of_lt hu) 4
  have e4l : (0 : ℝ) ≤ (Real.pi / 72) ^ 4 := by positivity
  have n3u : (0.04363324 : ℝ) ^ 3 ≤ 0.00008308 := by norm_num
  have n3l : (0.000083 : ℝ) ≤ (0.0436332 : ℝ) ^ 3 := by norm_num
  have n4u : (0.04363324 : ℝ) ^ 4 ≤ 0.00000363 := by norm_num
  constructor
  · linarith [hb.1]
  · linarith [hb.2]

/-- Numeric bounds for cos(π/72), i.e. cos of 2.5°. -/
theorem cos_pi72_bounds :
    (0.999047 : ℝ) ≤ Real.cos (Real.pi / 72) ∧ Real.cos (Real.pi / 72) ≤ 0.999049 := by
  have hl : (0.0436332 : ℝ) < Real.pi / 72 := by
    have := Real.pi_gt_d6
    linarith
  have hu : Real.pi / 72 < 0.04363324 := by
    have := Real.pi_lt_d6
    linarith
  have ht0 : (0 : ℝ) < Real.pi / 72 := by linarith
  have habs : |Real.pi / 72| ≤ 1 := by
    rw [abs_of_pos ht0]
    linarith
  have hb := abs_le.mp (Real.cos_bound habs)
  rw [abs_of_pos ht0] at hb
  have e2u : (Real.pi / 72) ^ 2 ≤ (0.04363324 : ℝ) ^ 2 :=
    pow_le_pow_left₀ (le_of_lt ht0) (le_of_lt hu) 2
  have e2l : (0.0436332 : ℝ) ^ 2 ≤ (Real.pi / 72) ^ 2 :=
    pow_le_pow_left₀ (by norm_num) (le_of_lt hl) 2
  have e4u : (Real.pi / 72) ^ 4 ≤ (0.04363324 : ℝ) ^ 4 :=
    pow_le_pow_left₀ (le_of_lt ht0) (le_of_lt hu) 4
  have e4l : (0 : ℝ) ≤ (Real.pi / 72) ^ 4 := by positivity
  have n2u : (0.04363324 : ℝ) ^ 2 ≤ 0.00190386 := by norm_num
  have n2l : (0.00190385 : ℝ) ≤ (0.0436332 : ℝ) ^ 2 := by norm_num
  have n4u : (0.04363324 : ℝ) ^ 4 ≤ 0.00000363 := by norm_num
  constructor
  · linarith [hb.1]
  · linarith [hb.2]

/-- C5: memo "M4" with both jitter ranges zero uses angle center -2.5°
and base distance 155, and returns exactly
(round(155·1.2·sin(-2.5°), 2), round(155·0.8·cos(-2.5°), 2)) =
(-8.11, 123.88), whatever the consumed draws are. -/
theorem C5_scenario_M4 :
    parse_memo_lookup "M4" = some (-2.5, 155) ∧
    ∀ u1 u2 : ℝ, parse_memo_to_xy_random_fixed "M4" 0 0 u1 u2 =
      some ((-8.11 : ℝ), (123.88 : ℝ)) := by
  refine ⟨rfl, fun u1 u2 => ?_⟩
  rw [show parse_memo_to_xy_random_fixed "M4" 0 0 u1 u2 =
      some (transform_xy ((-2.5 : ℚ) : ℝ) ((155 : ℚ) : ℝ) 0 0 u1 u2) from rfl]
  have hang : jittered_angle ((-2.5 : ℚ) : ℝ) 0 u1 = -2.5 := by
    unfold jittered_angle pyUniform
    push_cast
    ring
  have hdist : jittered_distance ((155 : ℚ) : ℝ) 0 u2 = 155 := by
    unfold jittered_distance pyUniform
    push_cast
    ring
  simp only [transform_xy, hang, hdist]
  rw [show (-2.5 : ℝ) * Real.pi / 180 = -(Real.pi / 72) from by ring,
    Real.sin_neg, Real.cos_neg]
  obtain ⟨hs1, hs2⟩ := sin_pi72_bounds
  obtain ⟨hc1, hc2⟩ := cos_pi72_bounds
  have hxval : pyRound2 ((155 : ℝ) * 1.2 * -Real.sin (Real.pi / 72)) = -8.11 := by
    rw [pyRound2]
    have hr : roundHalfEven ((155 : ℝ) * 1.2 * -Real.sin (Real.pi / 72) * 100) = -811 := by
      have h := roundHalfEven_gt_half ((155 : ℝ) * 1.2 * -Real.sin (Real.pi / 72) * 100)
        (-812) (by push_cast; nlinarith) (by push_cast; nlinarith)
      rw [h]
      norm_num
    rw [hr]
    norm_num
  have hyval : pyRound2 ((155 : ℝ) * 0.8 * Real.cos (Real.pi / 72)) = 123.88 := by
    rw [pyRound2]
    have hr : roundHalfEven ((155 : ℝ) * 0.8 * Real.cos (Real.pi / 72) * 100) = 12388 := by
      apply roundHalfEven_lt_half
      · push_cast
        nlinarith
      · push_cast
        nlinarith
    rw [hr]
    norm_num
  rw [hxval, hyval]

/-- A table without column `c` has no index for it. -/
theorem colIdx_none_of_hasCol_false (t : Table) (c : String) (h : t.hasCol c = false) :
    t.colIdx c = none := by
  rw [Table.colIdx]
  rw [Table.hasCol] at h
  cases hx : idxOf? t.cols c with
  | none => rfl
  | some i => rw [hx] at h; simp at h

/-- Indexing a missing column raises `KeyError`. -/
theorem getCol_err (t : Table) (c : String) (h : t.hasCol c = false) :
    t.getCol c = Except.error (.keyError c) := by
  rw [Table.getCol, colIdx_none_of_hasCol_false t c h]

/-- Indexing a present column succeeds. -/
theorem getCol_ok (t : Table) (c : String) (h : t.hasCol c = true) :
    ∃ l, t.getCol c = Except.ok l := by
  rw [Table.hasCol] at h
  rw [Table.getCol, Table.colIdx]
  cases hx : idxOf? t.cols c with
  | none => rw [hx] at h; simp at h
  | some i => exact ⟨_, rfl⟩

/-- Filtering on a present column succeeds and preserves the schema. -/
theorem filterCol_ok (t : Table) (c : String) (p : Cell → Bool) (h : t.hasCol c = true) :
    ∃ u, t.filterCol c p = Except.ok u ∧ u.cols = t.cols := by
  rw [Table.hasCol] at h
  rw [Table.filterCol, Table.colIdx]
  cases hx : idxOf? t.cols c with
  | none => rw [hx] at h; simp at h
  | some i => exact ⟨_, rfl, rfl⟩

/-- Tables with equal schemas agree on column presence. -/
theorem hasCol_of_cols_eq {t u : Table} (h : t.cols = u.cols) (c : String) :
    t.hasCol c = u.hasCol c := by
  simp [Table.hasCol, h]

/-- `Except.ok` feeds its value to the continuation. -/
theorem except_bind_ok {ε α β : Type} (a : α) (f : α → Except ε β) :
    (Except.ok a : Except ε α) >>= f = f a := rfl

/-- A batter step on a well-formed table succeeds and preserves the
schema. -/
theorem stepBatter_ok (df : Table) (sel : Option String) (h : df.hasCol "Batter" = true) :
    ∃ u, stepBatter df sel = Except.ok u ∧ u.cols = df.cols := by
  cases sel with
  | none => exact ⟨df, rfl, rfl⟩
  | some b => exact filterCol_ok df "Batter" (fun c => c.eqS b) h

/-- A game step on a well-formed table succeeds and preserves the
schema. -/
theorem stepGame_ok (df : Table) (sel : Option String) (h : df.hasCol "試合" = true) :
    ∃ u, stepGame df sel = Except.ok u ∧ u.cols = df.cols := by
  cases sel with
  | none => exact ⟨df, rfl, rfl⟩
  | some g => exact filterCol_ok df "試合" (fun c => c.eqS g) h

/-- A hit-type step on a well-formed table succeeds and preserves the
schema. -/
theorem stepHitTypes_ok (df : Table) (sel : List String) (h : df.hasCol "HitType" = true) :
    ∃ u, stepHitTypes df sel = Except.ok u ∧ u.cols = df.cols := by
  rw [stepHitTypes]
  split_ifs with hsel
  · exact ⟨df, rfl, rfl⟩
  · exact filterCol_ok df "HitType" _ h

/-- A pitch step on a well-formed table succeeds and preserves the
schema. -/
theorem stepPitch_ok (df : Table) (sel : PitchFilter) (h : df.hasCol "PitchType" = true) :
    ∃ u, stepPitch df sel = Except.ok u ∧ u.cols = df.cols := by
  cases sel with
  | all => exact ⟨df, rfl, rfl⟩
  | straight => exact filterCol_ok df "PitchType" (fun c => c.eqS "ストレート") h
  | breaking => exact filterCol_ok df "PitchType" (fun c => !(c.inS ["ストレート", "不明"])) h

/-- A disabled count step is the identity. -/
theorem stepCount_none (df : Table) (col : String) :
    stepCount df col none = Except.ok df := rfl

/-- C9: when the loaded dataset has no Ball/Strike columns, the two
count predicates are disabled: any requested ball/strike count yields
exactly the otherwise-filtered dataset, and the filter engine still
returns a result instead of raising. -/
theorem C9_count_filter_disabled (df : Table) (s : FilterSpec)
    (hb : df.hasCol "Ball" = false) (_hst : df.hasCol "Strike" = false)
    (h1 : df.hasCol "Batter" = true) (h2 : df.hasCol "試合" = true)
    (h3 : df.hasCol "HitType" = true) (h4 : df.hasCol "PitchType" = true) :
    mainFilter df s = mainFilter df { s with ball := none, strike := none } ∧
    ∃ t, mainFilter df s = Except.ok t := by
  have hen : (df.hasCol "Ball" && df.hasCol "Strike") = false := by
    rw [hb]
    rfl
  constructor
  · simp [mainFilter, hen]
  · obtain ⟨t1, he1, hc1⟩ := stepBatter_ok df s.batter h1
    obtain ⟨t2, he2, hc2⟩ := stepGame_ok t1 s.game
      (by rw [hasCol_of_cols_eq hc1]; exact h2)
    obtain ⟨t3, he3, hc3⟩ := stepHitTypes_ok t2 s.hitTypes
      (by rw [hasCol_of_cols_eq hc2, hasCol_of_cols_eq hc1]; exact h3)
    obtain ⟨t4, he4, hc4⟩ := stepPitch_ok t3 s.pitch
      (by rw [hasCol_of_cols_eq hc3, hasCol_of_cols_eq hc2, hasCol_of_cols_eq hc1]; exact h4)
    refine ⟨t4, ?_⟩
    simp [mainFilter, hen, he1, he2, he3, he4, except_bind_ok, stepCount_none]

/-- A filter request with a concrete ball count, everything else "all". -/
def exSpecBall2 : FilterSpec := ⟨none, none, ["ゴロ"], .all, some "2", none⟩

/-- C9 witness: the disabled count filter on the concrete one-row
dataset without Ball/Strike columns. -/
theorem C9_count_filter_disabled_witness :
    mainFilter exDf1 exSpecBall2 =
      mainFilter exDf1 { exSpecBall2 with ball := none, strike := none } ∧
    ∃ t, mainFilter exDf1 exSpecBall2 = Except.ok t :=
  C9_count_filter_disabled exDf1 exSpecBall2 rfl rfl rfl rfl rfl rfl

/-- `Except.error` short-circuits a bind. -/
theorem except_bind_error {ε α β : Type} (e : ε) (f : α → Except ε β) :
    (Except.error e : Except ε α) >>= f = Except.error e := rfl

/-- C10: on a loaded dataset that lacks a Ball or a Strike column, the
plot's hover-text construction indexes `df_filtered['Ball']` and
`df_filtered['Strike']` unconditionally and raises a missing-column
`KeyError` (even for a non-empty filtered view): the count-filter
graceful degradation does not extend to rendering. -/
theorem C10_hover_text_raises (df : Table)
    (h1 : df.hasCol "Batter" = true) (h2 : df.hasCol "HitType" = true)
    (h3 : df.hasCol "PitchType" = true) (h4 : df.hasCol "Memo" = true)
    (hmiss : df.hasCol "Ball" = false ∨ df.hasCol "Strike" = false)
    (_hne : df.rows ≠ []) :
    buildHoverText df = Except.error (.keyError "Ball") ∨
    buildHoverText df = Except.error (.keyError "Strike") := by
  obtain ⟨lb, hlb⟩ := getCol_ok df "Batter" h1
  obtain ⟨lh, hlh⟩ := getCol_ok df "HitType" h2
  obtain ⟨lp, hlp⟩ := getCol_ok df "PitchType" h3
  obtain ⟨lm, hlm⟩ := getCol_ok df "Memo" h4
  cases hB : df.hasCol "Ball" with
  | false =>
    left
    simp [buildHoverText, hlb, hlh, hlp, hlm, except_bind_ok, except_bind_error,
      getCol_err df "Ball" hB]
  | true =>
    have hS : df.hasCol "Strike" = false := by
      rcases hmiss with hm | hm
      · rw [hB] at hm
        exact absurd hm (by simp)
      · exact hm
    obtain ⟨lba, hlba⟩ := getCol_ok df "Ball" hB
    right
    simp [buildHoverText, hlb, hlh, hlp, hlm, hlba, except_bind_ok, except_bind_error,
      getCol_err df "Strike" hS]

/-- C10 witness: the hover text on the concrete one-row dataset without
Ball/Strike columns raises a missing-column error. -/
theorem C10_hover_text_raises_witness :
    buildHoverText exDf1 = Except.error (.keyError "Ball") ∨
    buildHoverText exDf1 = Except.error (.keyError "Strike") :=
  C10_hover_text_raises exDf1 rfl rfl rfl rfl (Or.inl rfl) (List.cons_ne_nil _ _)
